import Mathlib

/-!
# FreeRTOS+TCP: the IPv6 public header (`source/include/FreeRTOS_IPv6.h`)

A shallow embedding of the constants the header defines and of the address
and end-point operations it declares, followed by the properties the
specification states about them.

* The `#define` constants are transcribed from the header, casts included
  (`( uint8_t ) n` is `n % 256`).
* The header only declares `xIsIPv6Multicast`, `xCompareIPv6_Address`,
  `FreeRTOS_IsEndPointUp` and `FreeRTOS_AllEndPointsUp`; their bodies live in
  compilation units that are not part of the header.  Each of these is
  modelled from the specification text and marked as such.
-/

namespace FreeRTOS_IPv6

/-! ## Constants of the header -/

/-- Size of the fixed IPv6 header: `#define ipSIZE_OF_IPv6_HEADER 40U`. -/
def ipSIZE_OF_IPv6_HEADER : Nat := 40

/-- Size of the ICMPv6 header: `#define ipSIZE_OF_ICMPv6_HEADER 24U`. -/
def ipSIZE_OF_ICMPv6_HEADER : Nat := 24

/-- Size of an IPv6 address: `#define ipSIZE_OF_IPv6_ADDRESS 16U`. -/
def ipSIZE_OF_IPv6_ADDRESS : Nat := 16

/-- Protocol number of ICMPv6: `#define ipPROTOCOL_ICMP_IPv6 ( 58U )`. -/
def ipPROTOCOL_ICMP_IPv6 : Nat := 58

/-- First-byte discriminator of an IPv6 frame: `#define ipTYPE_IPv6 ( 0x60U )`. -/
def ipTYPE_IPv6 : Nat := 0x60

/-- The cast `( uint8_t ) n` of an unsigned constant. -/
def uint8_t (n : Nat) : Nat := n % 2 ^ 8

/-- ICMPv6 type, `( ( uint8_t ) 1U )`. -/
def ipICMP_DEST_UNREACHABLE_IPv6 : Nat := uint8_t 1

/-- ICMPv6 type, `( ( uint8_t ) 2U )`. -/
def ipICMP_PACKET_TOO_BIG_IPv6 : Nat := uint8_t 2

/-- ICMPv6 type, `( ( uint8_t ) 3U )` (the header spells it `EXEEDED`). -/
def ipICMP_TIME_EXEEDED_IPv6 : Nat := uint8_t 3

/-- ICMPv6 type, `( ( uint8_t ) 4U )`. -/
def ipICMP_PARAMETER_PROBLEM_IPv6 : Nat := uint8_t 4

/-- ICMPv6 type, `( ( uint8_t ) 128U )`. -/
def ipICMP_PING_REQUEST_IPv6 : Nat := uint8_t 128

/-- ICMPv6 type, `( ( uint8_t ) 129U )`. -/
def ipICMP_PING_REPLY_IPv6 : Nat := uint8_t 129

/-- ICMPv6 type, `( ( uint8_t ) 133U )`. -/
def ipICMP_ROUTER_SOLICITATION_IPv6 : Nat := uint8_t 133

/-- ICMPv6 type, `( ( uint8_t ) 134U )`. -/
def ipICMP_ROUTER_ADVERTISEMENT_IPv6 : Nat := uint8_t 134

/-- ICMPv6 type, `( ( uint8_t ) 135U )`. -/
def ipICMP_NEIGHBOR_SOLICITATION_IPv6 : Nat := uint8_t 135

/-- ICMPv6 type, `( ( uint8_t ) 136U )`. -/
def ipICMP_NEIGHBOR_ADVERTISEMENT_IPv6 : Nat := uint8_t 136

/-- Extension header code: `#define ipIPv6_EXT_HEADER_HOP_BY_HOP 0U`. -/
def ipIPv6_EXT_HEADER_HOP_BY_HOP : Nat := 0

/-- Extension header code: `#define ipIPv6_EXT_HEADER_DESTINATION_OPTIONS 60U`. -/
def ipIPv6_EXT_HEADER_DESTINATION_OPTIONS : Nat := 60

/-- Extension header code: `#define ipIPv6_EXT_HEADER_ROUTING_HEADER 43U`. -/
def ipIPv6_EXT_HEADER_ROUTING_HEADER : Nat := 43

/-- Extension header code: `#define ipIPv6_EXT_HEADER_FRAGMENT_HEADER 44U`. -/
def ipIPv6_EXT_HEADER_FRAGMENT_HEADER : Nat := 44

/-- Extension header code: `#define ipIPv6_EXT_HEADER_AUTHEN_HEADER 51U`. -/
def ipIPv6_EXT_HEADER_AUTHEN_HEADER : Nat := 51

/-- Extension header code: `#define ipIPv6_EXT_HEADER_SECURE_PAYLOAD 50U`. -/
def ipIPv6_EXT_HEADER_SECURE_PAYLOAD : Nat := 50

/-- Extension header code: `#define ipIPv6_EXT_HEADER_MOBILITY_HEADER 135U`. -/
def ipIPv6_EXT_HEADER_MOBILITY_HEADER : Nat := 135

/-- The ten ICMPv6 type constants, in the order the header defines them
(lines 50 to 59). -/
def icmpTypes_IPv6 : List Nat :=
  [ ipICMP_DEST_UNREACHABLE_IPv6, ipICMP_PACKET_TOO_BIG_IPv6,
    ipICMP_TIME_EXEEDED_IPv6, ipICMP_PARAMETER_PROBLEM_IPv6,
    ipICMP_PING_REQUEST_IPv6, ipICMP_PING_REPLY_IPv6,
    ipICMP_ROUTER_SOLICITATION_IPv6, ipICMP_ROUTER_ADVERTISEMENT_IPv6,
    ipICMP_NEIGHBOR_SOLICITATION_IPv6, ipICMP_NEIGHBOR_ADVERTISEMENT_IPv6 ]

/-- The four ICMPv6 error types among the constants of the header
(lines 50 to 53). -/
def icmpErrorTypes_IPv6 : List Nat :=
  [ ipICMP_DEST_UNREACHABLE_IPv6, ipICMP_PACKET_TOO_BIG_IPv6,
    ipICMP_TIME_EXEEDED_IPv6, ipICMP_PARAMETER_PROBLEM_IPv6 ]

/-- The six echo and neighbor-discovery types among the constants of the header
(lines 54 to 59). -/
def icmpInformationalTypes_IPv6 : List Nat :=
  [ ipICMP_PING_REQUEST_IPv6, ipICMP_PING_REPLY_IPv6,
    ipICMP_ROUTER_SOLICITATION_IPv6, ipICMP_ROUTER_ADVERTISEMENT_IPv6,
    ipICMP_NEIGHBOR_SOLICITATION_IPv6, ipICMP_NEIGHBOR_ADVERTISEMENT_IPv6 ]

/-- The seven extension-header constants, in the order the header defines
them (lines 62 to 69). -/
def extHeaders_IPv6 : List Nat :=
  [ ipIPv6_EXT_HEADER_HOP_BY_HOP, ipIPv6_EXT_HEADER_DESTINATION_OPTIONS,
    ipIPv6_EXT_HEADER_ROUTING_HEADER, ipIPv6_EXT_HEADER_FRAGMENT_HEADER,
    ipIPv6_EXT_HEADER_AUTHEN_HEADER, ipIPv6_EXT_HEADER_SECURE_PAYLOAD,
    ipIPv6_EXT_HEADER_MOBILITY_HEADER ]

/-- Bit 7 (the top bit) of an 8-bit value. -/
def topBit (c : Nat) : Bool := c / 2 ^ 7 % 2 == 1

/-! ## IPv6 addresses -/

/-- An IPv6 address, `IPv6_Address_t`: the 16 octets `ucBytes[ 0 .. 15 ]`,
in network order. -/
structure IPv6_Address_t where
  ucBytes : Fin 16 → Fin 256

/-- Octet `k` of an address as a number (`0` past the end). -/
def octetAt (a : IPv6_Address_t) (k : Nat) : Nat :=
  if h : k < 16 then (a.ucBytes ⟨k, h⟩).val else 0

/-- Bit `n` of an address, counted from the most significant bit of octet 0
(bit 0) to the least significant bit of octet 15 (bit 127). -/
def addressBit (a : IPv6_Address_t) (n : Nat) : Nat :=
  octetAt a (n / 8) / 2 ^ (7 - n % 8) % 2

/-- The address read as one 128-bit big-endian number. -/
def addressValue (a : IPv6_Address_t) : Nat :=
  (List.range 16).foldl (fun acc k => acc * 256 + octetAt a k) 0

/-- Modelled from the spec: the body of `xIsIPv6Multicast`, which the header
only declares ("Return pdTRUE if the IPv6 address is a multicast address").
Spec 4.1: `is_multicast(addr)` is true iff the first octet is 0xFF. -/
def xIsIPv6Multicast (pxIPAddress : IPv6_Address_t) : Bool :=
  octetAt pxIPAddress 0 == 0xFF

/-- Whether the first `n` bits of two addresses agree (an address has 128
bits; a longer prefix compares all of them).  Spec 3: "prefix-compare of
length L takes the first L bits". -/
def firstBitsEqual (a b : IPv6_Address_t) : Nat → Bool
  | 0 => true
  | n + 1 => firstBitsEqual a b n && (decide (128 ≤ n) || addressBit a n == addressBit b n)

/-- The leading 13 octets of a solicited-node multicast address,
`ff02:0000:0000:0000:0000:0001:ff..:....`. -/
def solicitedNodeLead : List Nat :=
  [0xFF, 0x02, 0, 0, 0, 0, 0, 0, 0, 0, 0, 0x01, 0xFF]

/-- Whether an address has the form `FF02::1:FFnn:nnnn`. -/
def isSolicitedNodeForm (r : IPv6_Address_t) : Bool :=
  (List.range 13).map (octetAt r) == solicitedNodeLead

/-- Modelled from the spec: `solicited_node_of`, which is not part of the
header.  Spec 4.1: "constructs FF02::1:FFxx:xxxx from the low 24 bits". -/
def solicited_node_of (a : IPv6_Address_t) : IPv6_Address_t :=
  ⟨![0xFF, 0x02, 0, 0, 0, 0, 0, 0, 0, 0, 0, 0x01, 0xFF,
     a.ucBytes 13, a.ucBytes 14, a.ucBytes 15]⟩

/-- Modelled from the spec: the body of `xCompareIPv6_Address`, which the
header only declares (with the note that it will also check if pxRight is the
special unicast address ff02::1:ffnn:nnnn, where nn:nnnn are the last 3
bytes of the IPv6 address).  The result is `true` for a match.
Spec 4.1: `compare_prefix(a, b, prefix_len)` is bitwise prefix equality, and
it additionally accepts the pseudo-form FF02::1:FFnn:nnnn on the right-hand
side, matching iff the low 24 bits of the left equal nn:nnnn.  Spec 9: the
shortcut is active only at prefix length 128, ordinary prefix compare
otherwise. -/
def xCompareIPv6_Address (pxLeft pxRight : IPv6_Address_t) (uxPrefixLength : Nat) : Bool :=
  if uxPrefixLength = 8 * ipSIZE_OF_IPv6_ADDRESS ∧ isSolicitedNodeForm pxRight = true then
    octetAt pxLeft 13 == octetAt pxRight 13 &&
    octetAt pxLeft 14 == octetAt pxRight 14 &&
    octetAt pxLeft 15 == octetAt pxRight 15
  else
    firstBitsEqual pxLeft pxRight uxPrefixLength

/-- The address `2001:db8::abcd:1234`. -/
def addr_2001_db8_abcd_1234 : IPv6_Address_t :=
  ⟨![0x20, 0x01, 0x0D, 0xB8, 0, 0, 0, 0, 0, 0, 0, 0, 0xAB, 0xCD, 0x12, 0x34]⟩

/-- The address `ff02::1:ffcd:1234`. -/
def addr_ff02_1_ffcd_1234 : IPv6_Address_t :=
  ⟨![0xFF, 0x02, 0, 0, 0, 0, 0, 0, 0, 0, 0, 0x01, 0xFF, 0xCD, 0x12, 0x34]⟩

/-- The address `ff02::1:ffcd:1235`. -/
def addr_ff02_1_ffcd_1235 : IPv6_Address_t :=
  ⟨![0xFF, 0x02, 0, 0, 0, 0, 0, 0, 0, 0, 0, 0x01, 0xFF, 0xCD, 0x12, 0x35]⟩

/-! ## End-points and interfaces -/

/-- The part of `struct xNetworkInterface` (forward-declared by the header)
that the up-state queries read.  Spec 3: a link hosting one or more
end-points. -/
structure NetworkInterface_t where
  /-- Whether the link is up. -/
  up : Bool

/-- The part of `struct xNetworkEndPoint` (forward-declared by the header)
that the up-state queries read.  Spec 3 and 9: an end-point is bound to one
interface, referenced by stable index. -/
structure NetworkEndPoint_t where
  /-- Index of the interface hosting this end-point. -/
  pxNetworkInterface : Nat
  /-- Whether Duplicate Address Detection completed successfully on the
  address of the end-point. -/
  dadSucceeded : Bool

/-- The interfaces and the end-points known to the stack. -/
structure NetworkState where
  interfaces : List NetworkInterface_t
  endPoints : List NetworkEndPoint_t

/-- Modelled from the spec: the body of `FreeRTOS_IsEndPointUp`, which the
header only declares.  Spec 4.4: `is_endpoint_up(endpoint)` is true iff the
interface of the end-point is up and DAD has completed successfully on its
address. -/
def FreeRTOS_IsEndPointUp (s : NetworkState) (pxEndPoint : NetworkEndPoint_t) : Bool :=
  match s.interfaces.get? pxEndPoint.pxNetworkInterface with
  | some pxInterface => pxInterface.up && pxEndPoint.dadSucceeded
  | none => false

/-- The walk over the end-point list performed by `FreeRTOS_AllEndPointsUp`:
an end-point is checked when no interface is given or when it belongs to the
given one. -/
def allEndPointsUpFrom (s : NetworkState) (pxInterface : Option Nat) :
    List NetworkEndPoint_t → Bool
  | [] => true
  | pxEndPoint :: rest =>
    if pxInterface = none ∨ pxInterface = some pxEndPoint.pxNetworkInterface then
      FreeRTOS_IsEndPointUp s pxEndPoint && allEndPointsUpFrom s pxInterface rest
    else
      allEndPointsUpFrom s pxInterface rest

/-- Modelled from the spec: the body of `FreeRTOS_AllEndPointsUp`, which the
header only declares ("Return pdTRUE if all end-points are up. When
pxInterface is null, all end-points will be checked").  Spec 4.4:
`all_endpoints_up(interface)` is the conjunction over the end-points of the
interface; a null interface argument means all end-points on all
interfaces.  `none` stands for the null pointer. -/
def FreeRTOS_AllEndPointsUp (s : NetworkState) (pxInterface : Option Nat) : Bool :=
  allEndPointsUpFrom s pxInterface s.endPoints

/-! ## Auxiliary lemmas -/

theorem octetAt_lt (a : IPv6_Address_t) (k : Nat) : octetAt a k < 256 := by
  unfold octetAt
  split
  · exact (a.ucBytes _).isLt
  · decide

theorem octetAt_fin (a : IPv6_Address_t) (i : Fin 16) : octetAt a i.val = (a.ucBytes i).val := by
  unfold octetAt
  simp

theorem address_ext (a b : IPv6_Address_t) (h : ∀ k, k < 16 → octetAt a k = octetAt b k) :
    a = b := by
  cases a with
  | mk f =>
    cases b with
    | mk g =>
      congr
      funext i
      have hi := h i.val i.isLt
      rw [octetAt_fin, octetAt_fin] at hi
      exact Fin.ext hi

theorem octet_eq_of_bits (x y : Nat) (hx : x < 256) (hy : y < 256)
    (h : ∀ k, k < 8 → x / 2 ^ (7 - k) % 2 = y / 2 ^ (7 - k) % 2) : x = y := by
  have h0 := h 0 (by decide)
  have h1 := h 1 (by decide)
  have h2 := h 2 (by decide)
  have h3 := h 3 (by decide)
  have h4 := h 4 (by decide)
  have h5 := h 5 (by decide)
  have h6 := h 6 (by decide)
  have h7 := h 7 (by decide)
  norm_num at h0 h1 h2 h3 h4 h5 h6 h7
  omega

theorem firstBitsEqual_iff (a b : IPv6_Address_t) (n : Nat) :
    firstBitsEqual a b n = true ↔
      ∀ i, i < n → i < 128 → addressBit a i = addressBit b i := by
  induction n with
  | zero => simp [firstBitsEqual]
  | succ n ih =>
    simp only [firstBitsEqual, Bool.and_eq_true, Bool.or_eq_true, decide_eq_true_eq,
      beq_iff_eq, ih]
    constructor
    · rintro ⟨h1, h2⟩ i hi hi128
      rcases Nat.lt_succ_iff_lt_or_eq.mp hi with hlt | heq
      · exact h1 i hlt hi128
      · subst heq
        rcases h2 with h2 | h2
        · omega
        · exact h2
    · intro h
      refine ⟨fun i hi hi128 => h i (Nat.lt_succ_of_lt hi) hi128, ?_⟩
      by_cases hn : 128 ≤ n
      · exact Or.inl hn
      · exact Or.inr (h n (Nat.lt_succ_self n) (by omega))

theorem firstBitsEqual_refl (a : IPv6_Address_t) (n : Nat) : firstBitsEqual a a n = true :=
  (firstBitsEqual_iff a a n).mpr (fun _ _ _ => rfl)

theorem firstBitsEqual_128_iff (a b : IPv6_Address_t) :
    firstBitsEqual a b 128 = true ↔ a = b := by
  constructor
  · intro h
    rw [firstBitsEqual_iff] at h
    apply address_ext
    intro k hk
    apply octet_eq_of_bits _ _ (octetAt_lt a k) (octetAt_lt b k)
    intro j hj
    have hb := h (8 * k + j) (by omega) (by omega)
    unfold addressBit at hb
    have e1 : (8 * k + j) / 8 = k := by omega
    have e2 : (8 * k + j) % 8 = j := by omega
    rw [e1, e2] at hb
    exact hb
  · rintro rfl
    exact firstBitsEqual_refl a 128

theorem addressValue_low24 (a : IPv6_Address_t) :
    addressValue a % 2 ^ 24 = octetAt a 13 * 65536 + octetAt a 14 * 256 + octetAt a 15 := by
  have h13 := octetAt_lt a 13
  have h14 := octetAt_lt a 14
  have h15 := octetAt_lt a 15
  simp only [addressValue, List.range, List.range.loop, List.foldl]
  norm_num
  omega

theorem low24_eq_iff (a b : IPv6_Address_t) :
    addressValue a % 2 ^ 24 = addressValue b % 2 ^ 24 ↔
      octetAt a 13 = octetAt b 13 ∧ octetAt a 14 = octetAt b 14 ∧
        octetAt a 15 = octetAt b 15 := by
  rw [addressValue_low24, addressValue_low24]
  have := octetAt_lt a 13
  have := octetAt_lt a 14
  have := octetAt_lt a 15
  have := octetAt_lt b 13
  have := octetAt_lt b 14
  have := octetAt_lt b 15
  omega

theorem xCompareIPv6_Address_of_form (a r : IPv6_Address_t)
    (h : isSolicitedNodeForm r = true) :
    xCompareIPv6_Address a r 128 = true ↔
      addressValue a % 2 ^ 24 = addressValue r % 2 ^ 24 := by
  rw [low24_eq_iff]
  simp [xCompareIPv6_Address, ipSIZE_OF_IPv6_ADDRESS, h, and_assoc]

theorem xCompareIPv6_Address_of_not_form (a b : IPv6_Address_t)
    (h : isSolicitedNodeForm b = false) :
    xCompareIPv6_Address a b 128 = true ↔ a = b := by
  simp [xCompareIPv6_Address, h, firstBitsEqual_128_iff]

theorem isSolicitedNodeForm_solicited_node_of (a : IPv6_Address_t) :
    isSolicitedNodeForm (solicited_node_of a) = true := by
  rfl

theorem octetAt_solicited_node_of (a : IPv6_Address_t) :
    octetAt (solicited_node_of a) 13 = octetAt a 13 ∧
    octetAt (solicited_node_of a) 14 = octetAt a 14 ∧
    octetAt (solicited_node_of a) 15 = octetAt a 15 :=
  ⟨rfl, rfl, rfl⟩

theorem allEndPointsUpFrom_iff (s : NetworkState) (pxInterface : Option Nat)
    (l : List NetworkEndPoint_t) :
    allEndPointsUpFrom s pxInterface l = true ↔
      ∀ ep ∈ l, (pxInterface = none ∨ pxInterface = some ep.pxNetworkInterface) →
        FreeRTOS_IsEndPointUp s ep = true := by
  induction l with
  | nil => simp [allEndPointsUpFrom]
  | cons ep rest ih =>
    unfold allEndPointsUpFrom
    by_cases hc : pxInterface = none ∨ pxInterface = some ep.pxNetworkInterface
    · rw [if_pos hc, Bool.and_eq_true, ih]
      constructor
      · rintro ⟨h1, h2⟩ e he hsel
        rcases List.mem_cons.mp he with rfl | hmem
        · exact h1
        · exact h2 e hmem hsel
      · intro h
        exact ⟨h ep (List.mem_cons_self _ _) hc,
          fun e he hsel => h e (List.mem_cons_of_mem _ he) hsel⟩
    · rw [if_neg hc, ih]
      constructor
      · intro h e he hsel
        rcases List.mem_cons.mp he with rfl | hmem
        · exact absurd hsel hc
        · exact h e hmem hsel
      · intro h e he hsel
        exact h e (List.mem_cons_of_mem _ he) hsel

/-! ## The properties of the specification -/

set_option maxRecDepth 100000

/-- Claim C1, as stated, fails: at prefix length 128 the left address
2001:db8::abcd:1234 matches the right address ff02::1:ffcd:1234 although the
two differ, so a match at length 128 is not equivalent to bytewise
equality. -/
theorem xCompareIPv6_Address_128_not_equality :
    ¬ (∀ a b : IPv6_Address_t, xCompareIPv6_Address a b 128 = true ↔ a = b) := by
  intro h
  have heq : addr_2001_db8_abcd_1234 = addr_ff02_1_ffcd_1234 :=
    (h addr_2001_db8_abcd_1234 addr_ff02_1_ffcd_1234).mp (by decide)
  have h0 := congrArg (fun a => octetAt a 0) heq
  revert h0
  decide

/-- Claim C1, amended: at prefix length 128 the comparison reports a match if
and only if the two addresses are bytewise equal, or the right-hand address
has the form FF02::1:FFnn:nnnn and the low 24 bits of the left equal the low
24 bits of the right. -/
theorem xCompareIPv6_Address_128_iff (a b : IPv6_Address_t) :
    xCompareIPv6_Address a b 128 = true ↔
      (a = b ∨ (isSolicitedNodeForm b = true ∧
        addressValue a % 2 ^ 24 = addressValue b % 2 ^ 24)) := by
  cases hform : isSolicitedNodeForm b with
  | true =>
    rw [xCompareIPv6_Address_of_form a b hform]
    constructor
    · intro h
      exact Or.inr ⟨rfl, h⟩
    · rintro (rfl | ⟨_, h⟩)
      · rfl
      · exact h
  | false =>
    rw [xCompareIPv6_Address_of_not_form a b hform]
    simp

/-- Claim C2: for every address A and every right-hand address R of the form
FF02::1:FFnn:nnnn, the comparison at length 128 reports a match if and only
if the low 24 bits of A equal those of R, that is, if and only if the last
three octets agree; the solicited-node address built from A has that form,
carries the low 24 bits of A, and always matches A; and 2001:db8::abcd:1234
matches ff02::1:ffcd:1234 but not ff02::1:ffcd:1235. -/
theorem xCompareIPv6_Address_solicited_node (A R : IPv6_Address_t)
    (hR : isSolicitedNodeForm R = true) :
    (xCompareIPv6_Address A R 128 = true ↔
      addressValue A % 2 ^ 24 = addressValue R % 2 ^ 24) ∧
    (xCompareIPv6_Address A R 128 = true ↔
      (A.ucBytes 13 = R.ucBytes 13 ∧ A.ucBytes 14 = R.ucBytes 14 ∧
        A.ucBytes 15 = R.ucBytes 15)) ∧
    isSolicitedNodeForm (solicited_node_of A) = true ∧
    addressValue (solicited_node_of A) % 2 ^ 24 = addressValue A % 2 ^ 24 ∧
    xCompareIPv6_Address A (solicited_node_of A) 128 = true ∧
    xCompareIPv6_Address addr_2001_db8_abcd_1234 addr_ff02_1_ffcd_1234 128 = true ∧
    xCompareIPv6_Address addr_2001_db8_abcd_1234 addr_ff02_1_ffcd_1235 128 = false := by
  have hlow : addressValue (solicited_node_of A) % 2 ^ 24 = addressValue A % 2 ^ 24 :=
    (low24_eq_iff _ _).mpr (octetAt_solicited_node_of A)
  refine ⟨xCompareIPv6_Address_of_form A R hR, ?_, isSolicitedNodeForm_solicited_node_of A,
    hlow, ?_, by decide, by decide⟩
  · rw [xCompareIPv6_Address_of_form A R hR, low24_eq_iff]
    have e13 := octetAt_fin A 13
    have e14 := octetAt_fin A 14
    have e15 := octetAt_fin A 15
    have r13 := octetAt_fin R 13
    have r14 := octetAt_fin R 14
    have r15 := octetAt_fin R 15
    simp only [Fin.ext_iff]
    constructor
    · rintro ⟨h1, h2, h3⟩
      exact ⟨by rw [← e13, ← r13]; exact h1, by rw [← e14, ← r14]; exact h2,
        by rw [← e15, ← r15]; exact h3⟩
    · rintro ⟨h1, h2, h3⟩
      exact ⟨by rw [← e13, ← r13] at h1; exact h1, by rw [← e14, ← r14] at h2; exact h2,
        by rw [← e15, ← r15] at h3; exact h3⟩
  · exact (xCompareIPv6_Address_of_form A _ (isSolicitedNodeForm_solicited_node_of A)).mpr
      hlow.symm

/-- Claim C2 at a concrete input: the right-hand address ff02::1:ffcd:1234
has the solicited-node form and 2001:db8::abcd:1234 matches it exactly when
their low 24 bits agree. -/
theorem xCompareIPv6_Address_solicited_node_witness :
    isSolicitedNodeForm addr_ff02_1_ffcd_1234 = true ∧
    (xCompareIPv6_Address addr_2001_db8_abcd_1234 addr_ff02_1_ffcd_1234 128 = true ↔
      addressValue addr_2001_db8_abcd_1234 % 2 ^ 24 =
        addressValue addr_ff02_1_ffcd_1234 % 2 ^ 24) :=
  ⟨by decide,
    (xCompareIPv6_Address_solicited_node addr_2001_db8_abcd_1234 addr_ff02_1_ffcd_1234
      (by decide)).1⟩

/-- Claim C3: for every address a and every prefix length L with L at most
128, comparing a with itself over L bits reports a match. -/
theorem xCompareIPv6_Address_refl (a : IPv6_Address_t) (L : Nat) (_hL : L ≤ 128) :
    xCompareIPv6_Address a a L = true := by
  unfold xCompareIPv6_Address
  split
  · simp
  · exact firstBitsEqual_refl a L

/-- Claim C3 at concrete inputs: ff02::1:ffcd:1234 matches itself over 64
bits. -/
theorem xCompareIPv6_Address_refl_witness :
    64 ≤ 128 ∧ xCompareIPv6_Address addr_ff02_1_ffcd_1234 addr_ff02_1_ffcd_1234 64 = true :=
  ⟨by decide, xCompareIPv6_Address_refl addr_ff02_1_ffcd_1234 64 (by decide)⟩

/-- Claim C4: the multicast test returns true if and only if the first octet
of the address is 0xFF. -/
theorem xIsIPv6Multicast_iff (a : IPv6_Address_t) :
    xIsIPv6Multicast a = true ↔ a.ucBytes 0 = 0xFF := by
  have h0 := octetAt_fin a 0
  unfold xIsIPv6Multicast
  rw [beq_iff_eq, Fin.ext_iff]
  constructor
  · intro h
    rw [← h0]
    exact h
  · intro h
    rw [← h0] at h
    exact h

/-- Claim C5: the size and protocol constants have the stated values: IPv6
header 40, ICMPv6 header 24, IPv6 address 16, ICMPv6 protocol 58, IPv6 frame
type 0x60. -/
theorem size_and_protocol_constants :
    ipSIZE_OF_IPv6_HEADER = 40 ∧ ipSIZE_OF_ICMPv6_HEADER = 24 ∧
    ipSIZE_OF_IPv6_ADDRESS = 16 ∧ ipPROTOCOL_ICMP_IPv6 = 58 ∧ ipTYPE_IPv6 = 0x60 := by
  decide

/-- Claim C6: the ten ICMPv6 type constants have the codes 1, 2, 3, 4, 128,
129, 133, 134, 135 and 136, each named message with its own code, and the
ten values are pairwise distinct. -/
theorem icmp_type_constants :
    ipICMP_DEST_UNREACHABLE_IPv6 = 1 ∧ ipICMP_PACKET_TOO_BIG_IPv6 = 2 ∧
    ipICMP_TIME_EXEEDED_IPv6 = 3 ∧ ipICMP_PARAMETER_PROBLEM_IPv6 = 4 ∧
    ipICMP_PING_REQUEST_IPv6 = 128 ∧ ipICMP_PING_REPLY_IPv6 = 129 ∧
    ipICMP_ROUTER_SOLICITATION_IPv6 = 133 ∧ ipICMP_ROUTER_ADVERTISEMENT_IPv6 = 134 ∧
    ipICMP_NEIGHBOR_SOLICITATION_IPv6 = 135 ∧ ipICMP_NEIGHBOR_ADVERTISEMENT_IPv6 = 136 ∧
    icmpTypes_IPv6.length = 10 ∧ icmpTypes_IPv6.Nodup := by
  decide

/-- Claim C7: the seven extension-header constants have the codes Hop-by-Hop
0, Routing 43, Fragment 44, Destination-Options 60, AH 51, ESP 50 and
Mobility 135, the seven values are pairwise distinct, and a next-header value
is one of them exactly when it is 0, 43, 44, 50, 51, 60 or 135. -/
theorem ext_header_constants :
    ipIPv6_EXT_HEADER_HOP_BY_HOP = 0 ∧ ipIPv6_EXT_HEADER_ROUTING_HEADER = 43 ∧
    ipIPv6_EXT_HEADER_FRAGMENT_HEADER = 44 ∧ ipIPv6_EXT_HEADER_DESTINATION_OPTIONS = 60 ∧
    ipIPv6_EXT_HEADER_AUTHEN_HEADER = 51 ∧ ipIPv6_EXT_HEADER_SECURE_PAYLOAD = 50 ∧
    ipIPv6_EXT_HEADER_MOBILITY_HEADER = 135 ∧
    extHeaders_IPv6.length = 7 ∧ extHeaders_IPv6.Nodup ∧
    ∀ n : Nat, n ∈ extHeaders_IPv6 ↔
      (n = 0 ∨ n = 43 ∨ n = 44 ∨ n = 50 ∨ n = 51 ∨ n = 60 ∨ n = 135) := by
  refine ⟨rfl, rfl, rfl, rfl, rfl, rfl, rfl, rfl, by decide, ?_⟩
  intro n
  simp only [extHeaders_IPv6, ipIPv6_EXT_HEADER_HOP_BY_HOP,
    ipIPv6_EXT_HEADER_DESTINATION_OPTIONS, ipIPv6_EXT_HEADER_ROUTING_HEADER,
    ipIPv6_EXT_HEADER_FRAGMENT_HEADER, ipIPv6_EXT_HEADER_AUTHEN_HEADER,
    ipIPv6_EXT_HEADER_SECURE_PAYLOAD, ipIPv6_EXT_HEADER_MOBILITY_HEADER,
    List.mem_cons, List.mem_singleton, List.not_mem_nil, or_false]
  omega

/-- Claim C8: with an interface given, all-end-points-up is true exactly when
every end-point of that interface is up; with the null interface it is true
exactly when every end-point of every interface is up. -/
theorem FreeRTOS_AllEndPointsUp_iff (s : NetworkState) :
    (∀ i : Nat, FreeRTOS_AllEndPointsUp s (some i) = true ↔
      ∀ ep ∈ s.endPoints, ep.pxNetworkInterface = i → FreeRTOS_IsEndPointUp s ep = true) ∧
    (FreeRTOS_AllEndPointsUp s none = true ↔
      ∀ ep ∈ s.endPoints, FreeRTOS_IsEndPointUp s ep = true) := by
  constructor
  · intro i
    unfold FreeRTOS_AllEndPointsUp
    rw [allEndPointsUpFrom_iff]
    constructor
    · intro h ep hep hi
      exact h ep hep (Or.inr (by rw [hi]))
    · intro h ep hep hsel
      rcases hsel with hnone | hsome
      · exact absurd hnone (by simp)
      · exact h ep hep (Option.some.inj hsome).symm
  · unfold FreeRTOS_AllEndPointsUp
    rw [allEndPointsUpFrom_iff]
    constructor
    · intro h ep hep
      exact h ep hep (Or.inl rfl)
    · intro h ep hep _
      exact h ep hep

/-- Claim C9: the ICMPv6 protocol number is 58 and differs from every one of
the seven extension-header codes, so 58 is not an extension-header value. -/
theorem icmp_protocol_not_ext_header :
    ipPROTOCOL_ICMP_IPv6 = 58 ∧ ipPROTOCOL_ICMP_IPv6 ∉ extHeaders_IPv6 ∧
    (∀ c ∈ extHeaders_IPv6, c ≠ ipPROTOCOL_ICMP_IPv6) ∧
    ipPROTOCOL_ICMP_IPv6 ≠ ipIPv6_EXT_HEADER_HOP_BY_HOP ∧
    ipPROTOCOL_ICMP_IPv6 ≠ ipIPv6_EXT_HEADER_ROUTING_HEADER ∧
    ipPROTOCOL_ICMP_IPv6 ≠ ipIPv6_EXT_HEADER_FRAGMENT_HEADER ∧
    ipPROTOCOL_ICMP_IPv6 ≠ ipIPv6_EXT_HEADER_DESTINATION_OPTIONS ∧
    ipPROTOCOL_ICMP_IPv6 ≠ ipIPv6_EXT_HEADER_AUTHEN_HEADER ∧
    ipPROTOCOL_ICMP_IPv6 ≠ ipIPv6_EXT_HEADER_SECURE_PAYLOAD ∧
    ipPROTOCOL_ICMP_IPv6 ≠ ipIPv6_EXT_HEADER_MOBILITY_HEADER := by
  decide

/-- Claim C10: each of the ten ICMPv6 type constants fits in 8 bits; a
constant is below 128, equivalently has bit 7 clear, if and only if it is one
of the four error types; the six echo and neighbor-discovery types have bit 7
set; and the ten constants are the four error types followed by those six. -/
theorem icmp_type_top_bit :
    (∀ c ∈ icmpTypes_IPv6, c < 2 ^ 8 ∧ (c < 128 ↔ c ∈ icmpErrorTypes_IPv6) ∧
      (topBit c = false ↔ c ∈ icmpErrorTypes_IPv6)) ∧
    (∀ c ∈ icmpInformationalTypes_IPv6, 128 ≤ c ∧ topBit c = true) ∧
    icmpTypes_IPv6 = icmpErrorTypes_IPv6 ++ icmpInformationalTypes_IPv6 := by
  decide

end FreeRTOS_IPv6
